import Mathlib

/-!
Verification of the Adjusted FDV calculator core (`adjusted_fdv.py`).

The weekly growth simulator `calculate_alpha_growth` and the aggregator's
closed-form `final_circulating_supply` are embedded over exact rationals:
each Python arithmetic expression is translated literally, with the
decimal constants 0.18, 0.41, 0.75, 0.37 read as exact rationals.
-/

namespace AdjustedFdv

/-- One row of `weekly_data`, mirroring the dict appended each iteration of
the loop in `calculate_alpha_growth`. -/
structure WeekRecord where
  Week : Nat
  Start_Holdings : ℚ
  Staking_Rewards : ℚ
  End_Holdings : ℚ
  Weekly_APR : ℚ
  Annualized_APY : ℚ
deriving DecidableEq

/-- The dict returned by `calculate_alpha_growth`. -/
structure GrowthResult where
  subnet_id : String
  initial_holdings : ℚ
  final_holdings : ℚ
  weeks_analyzed : Nat
  total_rewards : ℚ
  weekly_data : List WeekRecord
deriving DecidableEq

/-- `end_total_supply = start_total_supply + 7200*7 + 7200*7*alpha_injection_param`. -/
def end_total_supply (alpha_injection_param start_total_supply : ℚ) : ℚ :=
  start_total_supply + 7200 * 7 + 7200 * 7 * alpha_injection_param

/-- `out_supply = total_supply * (1 - alpha_in_pool_param)` (start or end of period). -/
def out_supply (alpha_in_pool_param total_supply : ℚ) : ℚ :=
  total_supply * (1 - alpha_in_pool_param)

/-- `avg_out_supply = (start_out_supply + end_out_supply) / 2`. -/
def avg_out_supply (alpha_injection_param alpha_in_pool_param start_total_supply : ℚ) : ℚ :=
  (out_supply alpha_in_pool_param start_total_supply
    + out_supply alpha_in_pool_param (end_total_supply alpha_injection_param start_total_supply)) / 2

/-- `root_proportion = (avg_root_staked_tao * 0.18) / (avg_root_staked_tao * 0.18 + total_supply)`. -/
def root_proportion (avg_root_staked_tao total_supply : ℚ) : ℚ :=
  (avg_root_staked_tao * 0.18) / (avg_root_staked_tao * 0.18 + total_supply)

/-- `alpha_proportion = 1 - root_proportion`. -/
def alpha_proportion (avg_root_staked_tao total_supply : ℚ) : ℚ :=
  1 - root_proportion avg_root_staked_tao total_supply

/-- `period_avg_alpha_proportion = (start_alpha_proportion + end_alpha_proportion) / 2`. -/
def period_avg_alpha_proportion (alpha_injection_param avg_root_staked_tao start_total_supply : ℚ) : ℚ :=
  (alpha_proportion avg_root_staked_tao start_total_supply
    + alpha_proportion avg_root_staked_tao (end_total_supply alpha_injection_param start_total_supply)) / 2

/-- `period_staking_rewards = (end_out_supply - start_out_supply) * 0.41 * period_avg_alpha_proportion`. -/
def period_staking_rewards (alpha_injection_param alpha_in_pool_param avg_root_staked_tao
    start_total_supply : ℚ) : ℚ :=
  (out_supply alpha_in_pool_param (end_total_supply alpha_injection_param start_total_supply)
      - out_supply alpha_in_pool_param start_total_supply) * 0.41
    * period_avg_alpha_proportion alpha_injection_param avg_root_staked_tao start_total_supply

/-- `user_staking_rewards = (current_holdings / avg_out_supply) * period_staking_rewards`. -/
def user_staking_rewards (alpha_injection_param alpha_in_pool_param avg_root_staked_tao
    start_total_supply current_holdings : ℚ) : ℚ :=
  (current_holdings / avg_out_supply alpha_injection_param alpha_in_pool_param start_total_supply)
    * period_staking_rewards alpha_injection_param alpha_in_pool_param avg_root_staked_tao
        start_total_supply

/-- One iteration of the loop body of `calculate_alpha_growth`: given the
entering total supply and holdings, produce the end-of-week total supply,
the new holdings, and the emitted `weekly_data` row. -/
def simWeek (alpha_injection_param alpha_in_pool_param avg_root_staked_tao : ℚ)
    (week : Nat) (start_total_supply current_holdings : ℚ) : ℚ × ℚ × WeekRecord :=
  let usr := user_staking_rewards alpha_injection_param alpha_in_pool_param avg_root_staked_tao
    start_total_supply current_holdings
  let new_holdings := current_holdings + usr
  let alpha_apr := if current_holdings > 0 then usr / current_holdings else 0
  let apy := alpha_apr * 52
  (end_total_supply alpha_injection_param start_total_supply, new_holdings,
    { Week := week + 1
      Start_Holdings := current_holdings
      Staking_Rewards := usr
      End_Holdings := new_holdings
      Weekly_APR := alpha_apr
      Annualized_APY := apy })

/-- The `for week in range(weeks)` loop: threads the end-of-week total supply
and holdings into the next iteration and collects the `weekly_data` rows.
Returns (terminal total supply, terminal holdings, rows). -/
def simLoop (alpha_injection_param alpha_in_pool_param avg_root_staked_tao : ℚ) :
    Nat → Nat → ℚ → ℚ → ℚ × ℚ × List WeekRecord
  | _, 0, start_total_supply, current_holdings => (start_total_supply, current_holdings, [])
  | week, n + 1, start_total_supply, current_holdings =>
    let step := simWeek alpha_injection_param alpha_in_pool_param avg_root_staked_tao
      week start_total_supply current_holdings
    let rest := simLoop alpha_injection_param alpha_in_pool_param avg_root_staked_tao
      (week + 1) n step.1 step.2.1
    (rest.1, rest.2.1, step.2.2 :: rest.2.2)

/-- `calculate_alpha_growth`: runs the weekly loop and assembles the result dict. -/
def calculate_alpha_growth (subnet_id : String) (initial_holdings : ℚ) (weeks : Nat)
    (start_alpha_supply alpha_injection_param alpha_in_pool_param avg_root_staked_tao : ℚ) :
    GrowthResult :=
  let run := simLoop alpha_injection_param alpha_in_pool_param avg_root_staked_tao
    0 weeks start_alpha_supply initial_holdings
  { subnet_id := subnet_id
    initial_holdings := initial_holdings
    final_holdings := run.2.1
    weeks_analyzed := weeks
    total_rewards := run.2.1 - initial_holdings
    weekly_data := run.2.2 }

/-- The total supply held by the loop variable `end_total_supply` after `k`
completed weeks (equivalently, the supply entering week `k + 1`); `k = 0`
gives `start_alpha_supply`. -/
def supplyAt (alpha_injection_param alpha_in_pool_param avg_root_staked_tao
    start_alpha_supply current_holdings : ℚ) (k : Nat) : ℚ :=
  (simLoop alpha_injection_param alpha_in_pool_param avg_root_staked_tao
    0 k start_alpha_supply current_holdings).1

/-- The aggregator's closed form:
`final_circulating_supply = start_alpha_supply + (weeks * (7200*7 + 7200*7*alpha_injection_param))`. -/
def final_circulating_supply (start_alpha_supply : ℚ) (weeks : Nat)
    (alpha_injection_param : ℚ) : ℚ :=
  start_alpha_supply + (weeks * (7200 * 7 + 7200 * 7 * alpha_injection_param))

/-- The terminal total supply of the loop is the start supply plus `fuel`
weekly emissions, independently of the week counter and the holdings. -/
lemma simLoop_fst (inj pool root : ℚ) :
    ∀ (fuel week : Nat) (s h : ℚ),
      (simLoop inj pool root week fuel s h).1 = s + fuel * (7200 * 7 + 7200 * 7 * inj) := by
  intro fuel
  induction fuel with
  | zero => intro week s h; simp [simLoop]
  | succ n ih =>
    intro week s h
    show (simLoop inj pool root (week + 1) n
        (end_total_supply inj s) (h + user_staking_rewards inj pool root s h)).1
      = s + (n + 1 : ℕ) * (7200 * 7 + 7200 * 7 * inj)
    rw [ih]
    unfold end_total_supply
    push_cast
    ring

/-- The weekly emission is strictly positive when the injection rate is
nonnegative. -/
lemma end_total_supply_pos (inj t : ℚ) (ht : 0 ≤ t) (hi : 0 ≤ inj) :
    0 < end_total_supply inj t := by
  unfold end_total_supply
  nlinarith

/-- The average out-of-pool supply is strictly positive whenever the entering
supply is nonnegative, the injection rate is nonnegative and the pool ratio is
below 1. -/
lemma avg_out_supply_pos (inj pool t : ℚ) (ht : 0 ≤ t) (hi : 0 ≤ inj)
    (hp1 : pool < 1) : 0 < avg_out_supply inj pool t := by
  have hq : (0 : ℚ) < 1 - pool := by linarith
  have hend := end_total_supply_pos inj t ht hi
  unfold avg_out_supply out_supply
  nlinarith

/-- The supply entering any week of a run stays nonnegative. -/
lemma supplyAt_nonneg (inj pool root s h : ℚ) (hs : 0 ≤ s) (hi : 0 ≤ inj) (k : Nat) :
    0 ≤ supplyAt inj pool root s h k := by
  rw [supplyAt, simLoop_fst]
  have hk : (0 : ℚ) ≤ (k : ℚ) := Nat.cast_nonneg k
  nlinarith

/-- The alpha proportion is nonnegative at any nonnegative supply. -/
lemma alpha_proportion_nonneg (root t : ℚ) (hr : 0 < root) (ht : 0 ≤ t) :
    0 ≤ alpha_proportion root t := by
  unfold alpha_proportion root_proportion
  have hd : (0 : ℚ) < root * 0.18 := mul_pos hr (by norm_num)
  have h1 : root * 0.18 / (root * 0.18 + t) ≤ 1 :=
    div_le_one_of_le₀ (by linarith) (by linarith)
  linarith

/-- The alpha proportion is strictly positive at any strictly positive supply. -/
lemma alpha_proportion_pos (root t : ℚ) (hr : 0 < root) (ht : 0 < t) :
    0 < alpha_proportion root t := by
  unfold alpha_proportion root_proportion
  have hd : (0 : ℚ) < root * 0.18 := mul_pos hr (by norm_num)
  have h1 : root * 0.18 / (root * 0.18 + t) < 1 := by
    rw [div_lt_one (by linarith)]
    linarith
  linarith

/-- The period reward pool is strictly positive under the simulator's
preconditions with a strictly positive root stake. -/
lemma period_staking_rewards_pos (inj pool root t : ℚ)
    (ht : 0 ≤ t) (hi : 0 ≤ inj) (hp1 : pool < 1) (hr : 0 < root) :
    0 < period_staking_rewards inj pool root t := by
  unfold period_staking_rewards
  have hdiff : 0 < out_supply pool (end_total_supply inj t) - out_supply pool t := by
    unfold out_supply end_total_supply
    nlinarith
  have hpap : 0 < period_avg_alpha_proportion inj root t := by
    unfold period_avg_alpha_proportion
    have h1 := alpha_proportion_nonneg root t hr ht
    have h2 := alpha_proportion_pos root (end_total_supply inj t) hr
      (end_total_supply_pos inj t ht hi)
    linarith
  exact mul_pos (mul_pos hdiff (by norm_num)) hpap

/-- A user with strictly positive holdings earns a strictly positive reward in
any week entered with nonnegative supply. -/
lemma user_staking_rewards_pos (inj pool root t h : ℚ)
    (ht : 0 ≤ t) (hh : 0 < h) (hi : 0 ≤ inj) (hp1 : pool < 1) (hr : 0 < root) :
    0 < user_staking_rewards inj pool root t h := by
  unfold user_staking_rewards
  exact mul_pos (div_pos hh (avg_out_supply_pos inj pool t ht hi hp1))
    (period_staking_rewards_pos inj pool root t ht hi hp1 hr)

/-- Unfolding one iteration of the simulator loop. -/
lemma simLoop_succ (inj pool root : ℚ) (week n : Nat) (s h : ℚ) :
    simLoop inj pool root week (n + 1) s h
      = ((simLoop inj pool root (week + 1) n (end_total_supply inj s)
            (h + user_staking_rewards inj pool root s h)).1,
         (simLoop inj pool root (week + 1) n (end_total_supply inj s)
            (h + user_staking_rewards inj pool root s h)).2.1,
         (simWeek inj pool root week s h).2.2
           :: (simLoop inj pool root (week + 1) n (end_total_supply inj s)
                (h + user_staking_rewards inj pool root s h)).2.2) := rfl

/-- Holdings never decrease across a run started with positive holdings and
nonnegative supply, under the simulator's preconditions. -/
lemma simLoop_holdings_ge (inj pool root : ℚ) (hi : 0 ≤ inj) (hp1 : pool < 1)
    (hr : 0 < root) :
    ∀ (fuel week : Nat) (s h : ℚ), 0 ≤ s → 0 < h →
      h ≤ (simLoop inj pool root week fuel s h).2.1 := by
  intro fuel
  induction fuel with
  | zero => intro week s h _ _; exact le_refl h
  | succ n ih =>
    intro week s h hs hh
    rw [simLoop_succ]
    have husr := user_staking_rewards_pos inj pool root s h hs hh hi hp1 hr
    have hs' : 0 ≤ end_total_supply inj s := (end_total_supply_pos inj s hs hi).le
    have hh' : 0 < h + user_staking_rewards inj pool root s h := by linarith
    have := ih (week + 1) (end_total_supply inj s)
      (h + user_staking_rewards inj pool root s h) hs' hh'
    linarith

/-- C1: for every startSupply ≥ 0, injectionRate ≥ 0, 0 ≤ poolRatio < 1 and
weeks ≥ 1, the aggregator's closed-form `final_circulating_supply` equals the
simulator's terminal total supply, the value of `end_total_supply` after the
last week of `calculate_alpha_growth`. -/
theorem closed_form_agrees (s inj pool root h : ℚ) (weeks : Nat)
    (hs : 0 ≤ s) (hi : 0 ≤ inj) (hp0 : 0 ≤ pool) (hp1 : pool < 1) (hw : 1 ≤ weeks) :
    final_circulating_supply s weeks inj = supplyAt inj pool root s h weeks := by
  rw [supplyAt, simLoop_fst]
  rfl

/-- Witness for `closed_form_agrees` at Scenario 1 parameters with weeks = 1. -/
theorem closed_form_agrees_witness :
    final_circulating_supply 1925000 1 0.75 = supplyAt 0.75 0.37 5600000 1925000 5000 1 :=
  closed_form_agrees 1925000 0.75 0.37 5600000 5000 1 (by norm_num) (by norm_num)
    (by norm_num) (by norm_num) (by norm_num)

/-- C3: every week, the end-of-period total supply is the entering supply plus
the fixed emission `7200*7` plus `7200*7 * injectionRate`; the supply entering
the next week is this week's end supply, so the supply after `k + 1` weeks is
the supply after `k` weeks plus one emission, and nothing else changes it. For
Scenario 1 (startSupply = 1925000, injectionRate = 0.75), week 1 ends with
total supply 2013200. -/
theorem weekly_supply_recurrence (inj pool root s h : ℚ) (week k : Nat) :
    (simWeek inj pool root week s h).1 = s + 7200 * 7 + 7200 * 7 * inj
    ∧ supplyAt inj pool root s h (k + 1)
        = supplyAt inj pool root s h k + 7200 * 7 + 7200 * 7 * inj
    ∧ supplyAt 0.75 0.37 5600000 1925000 5000 1 = 2013200 := by
  refine ⟨rfl, ?_, ?_⟩
  · rw [supplyAt, supplyAt, simLoop_fst, simLoop_fst]
    push_cast
    ring
  · rw [supplyAt, simLoop_fst]
    norm_num

/-- C6: with injectionRate ≥ 0, the week-indexed sequence of total supply
values produced by the simulator is monotonically non-decreasing. -/
theorem totalSupply_monotone (inj pool root s h : ℚ) (hi : 0 ≤ inj) (k : Nat) :
    supplyAt inj pool root s h k ≤ supplyAt inj pool root s h (k + 1) := by
  rw [supplyAt, supplyAt, simLoop_fst, simLoop_fst]
  have hE : (0 : ℚ) ≤ 7200 * 7 + 7200 * 7 * inj := by nlinarith
  push_cast
  nlinarith

/-- Witness for `totalSupply_monotone` at Scenario 1 parameters, week 3 to 4. -/
theorem totalSupply_monotone_witness :
    supplyAt 0.75 0.37 5600000 1925000 5000 3 ≤ supplyAt 0.75 0.37 5600000 1925000 5000 4 :=
  totalSupply_monotone 0.75 0.37 5600000 1925000 5000 (by norm_num) 3

/-- C7: the simulator is deterministic — two calls of `calculate_alpha_growth`
with identical arguments return identical results, including identical
`weekly_data` sequences. -/
theorem deterministic (sid1 sid2 : String) (h1 h2 : ℚ) (w1 w2 : Nat)
    (s1 s2 inj1 inj2 p1 p2 r1 r2 : ℚ)
    (hsid : sid1 = sid2) (hh : h1 = h2) (hw : w1 = w2) (hs : s1 = s2)
    (hinj : inj1 = inj2) (hp : p1 = p2) (hr : r1 = r2) :
    calculate_alpha_growth sid1 h1 w1 s1 inj1 p1 r1
      = calculate_alpha_growth sid2 h2 w2 s2 inj2 p2 r2 := by
  subst hsid hh hw hs hinj hp hr
  rfl

/-- Witness for `deterministic` at Scenario 1 arguments. -/
theorem deterministic_witness :
    calculate_alpha_growth "1" 5000 1 1925000 0.75 0.37 5600000
      = calculate_alpha_growth "1" 5000 1 1925000 0.75 0.37 5600000 :=
  deterministic "1" "1" 5000 5000 1 1 1925000 1925000 0.75 0.75 0.37 0.37 5600000 5600000
    rfl rfl rfl rfl rfl rfl rfl

/-- C8: for startSupply = 1925000, injectionRate = 0.75 and weeks = 52, the
closed-form `final_circulating_supply` evaluates exactly to 6511400. -/
theorem scenario2_final_circulating_supply :
    final_circulating_supply 1925000 52 0.75 = 6511400 := by
  unfold final_circulating_supply
  norm_num

/-- C10: `subnet_id` has no computational effect — for any two subnet ids and
otherwise identical arguments, every field of the result except `subnet_id`
coincides, and the returned `subnet_id` is the input unchanged. -/
theorem subnet_id_passthrough (sid sid1 sid2 : String) (h : ℚ) (w : Nat)
    (s inj pool root : ℚ) :
    (calculate_alpha_growth sid h w s inj pool root).subnet_id = sid
    ∧ (calculate_alpha_growth sid1 h w s inj pool root).initial_holdings
        = (calculate_alpha_growth sid2 h w s inj pool root).initial_holdings
    ∧ (calculate_alpha_growth sid1 h w s inj pool root).final_holdings
        = (calculate_alpha_growth sid2 h w s inj pool root).final_holdings
    ∧ (calculate_alpha_growth sid1 h w s inj pool root).weeks_analyzed
        = (calculate_alpha_growth sid2 h w s inj pool root).weeks_analyzed
    ∧ (calculate_alpha_growth sid1 h w s inj pool root).total_rewards
        = (calculate_alpha_growth sid2 h w s inj pool root).total_rewards
    ∧ (calculate_alpha_growth sid1 h w s inj pool root).weekly_data
        = (calculate_alpha_growth sid2 h w s inj pool root).weekly_data :=
  ⟨rfl, rfl, rfl, rfl, rfl, rfl⟩

/-- C4 counterexample: called with weeks = 0, `calculate_alpha_growth` does not
reject the call — it returns a complete no-op result with an empty
`weekly_data`, final holdings equal to the initial holdings and zero rewards. -/
theorem weeks_zero_returns_noop :
    calculate_alpha_growth "1" 5000 0 1925000 0.75 0.37 5600000
      = { subnet_id := "1", initial_holdings := 5000, final_holdings := 5000,
          weeks_analyzed := 0, total_rewards := 0, weekly_data := [] } := by
  simp only [calculate_alpha_growth, simLoop, GrowthResult.mk.injEq]
  norm_num

/-- C4 amended: `calculate_alpha_growth` with weeks = 0 is a no-op, not a
rejection — the loop body never runs and the result has empty `weekly_data`,
`final_holdings = initial_holdings` and `total_rewards = 0`; the precondition
weeks ≥ 1 is enforced only at the input-form boundary, not by the simulator. -/
theorem weeks_zero_noop (sid : String) (h s inj pool root : ℚ) :
    (calculate_alpha_growth sid h 0 s inj pool root).weekly_data = []
    ∧ (calculate_alpha_growth sid h 0 s inj pool root).final_holdings = h
    ∧ (calculate_alpha_growth sid h 0 s inj pool root).total_rewards = 0 := by
  refine ⟨rfl, rfl, ?_⟩
  show h - h = 0
  exact sub_self h

/-- C5: under startSupply ≥ 0, injectionRate ≥ 0 and 0 ≤ poolRatio < 1, the
average out-of-pool supply of every simulated week is strictly positive, so
the division computing `user_staking_rewards` never divides by zero. -/
theorem avg_out_supply_never_zero (inj pool root s h : ℚ) (k : Nat)
    (hs : 0 ≤ s) (hi : 0 ≤ inj) (hp0 : 0 ≤ pool) (hp1 : pool < 1) :
    0 < avg_out_supply inj pool (supplyAt inj pool root s h k) :=
  avg_out_supply_pos inj pool _ (supplyAt_nonneg inj pool root s h hs hi k) hi hp1

/-- Witness for `avg_out_supply_never_zero` at Scenario 1 parameters, week 1. -/
theorem avg_out_supply_never_zero_witness :
    0 < avg_out_supply 0.75 0.37 (supplyAt 0.75 0.37 5600000 1925000 5000 0) :=
  avg_out_supply_never_zero 0.75 0.37 5600000 1925000 5000 0 (by norm_num) (by norm_num)
    (by norm_num) (by norm_num)

/-- C2: with strictly positive initial holdings, startSupply ≥ 0,
injectionRate ≥ 0, 0 ≤ poolRatio < 1, rootStake > 0 and weeks ≥ 1, the
returned `final_holdings` strictly exceeds `initial_holdings`. -/
theorem holdings_strictly_grow (sid : String) (h s inj pool root : ℚ) (weeks : Nat)
    (hh : 0 < h) (hs : 0 ≤ s) (hi : 0 ≤ inj) (hp0 : 0 ≤ pool) (hp1 : pool < 1)
    (hr : 0 < root) (hw : 1 ≤ weeks) :
    (calculate_alpha_growth sid h weeks s inj pool root).initial_holdings
      < (calculate_alpha_growth sid h weeks s inj pool root).final_holdings := by
  obtain ⟨n, rfl⟩ : ∃ n, weeks = n + 1 := ⟨weeks - 1, (Nat.succ_pred_eq_of_pos hw).symm⟩
  show h < (simLoop inj pool root 0 (n + 1) s h).2.1
  rw [simLoop_succ]
  have husr := user_staking_rewards_pos inj pool root s h hs hh hi hp1 hr
  have hs' : 0 ≤ end_total_supply inj s := (end_total_supply_pos inj s hs hi).le
  have hh' : 0 < h + user_staking_rewards inj pool root s h := by linarith
  have := simLoop_holdings_ge inj pool root hi hp1 hr n 1 (end_total_supply inj s)
    (h + user_staking_rewards inj pool root s h) hs' hh'
  linarith

/-- Witness for `holdings_strictly_grow` at Scenario 1 arguments. -/
theorem holdings_strictly_grow_witness :
    (calculate_alpha_growth "1" 5000 1 1925000 0.75 0.37 5600000).initial_holdings
      < (calculate_alpha_growth "1" 5000 1 1925000 0.75 0.37 5600000).final_holdings :=
  holdings_strictly_grow "1" 5000 1925000 0.75 0.37 5600000 1 (by norm_num) (by norm_num)
    (by norm_num) (by norm_num) (by norm_num) (by norm_num) (by norm_num)

/-- The emitted `weekly_data` row of one iteration, in explicit form. -/
lemma simWeek_record (inj pool root : ℚ) (week : Nat) (s h : ℚ) :
    (simWeek inj pool root week s h).2.2
      = { Week := week + 1
          Start_Holdings := h
          Staking_Rewards := user_staking_rewards inj pool root s h
          End_Holdings := h + user_staking_rewards inj pool root s h
          Weekly_APR := if h > 0 then user_staking_rewards inj pool root s h / h else 0
          Annualized_APY :=
            (if h > 0 then user_staking_rewards inj pool root s h / h else 0) * 52 } := rfl

/-- The rewards recorded in `weekly_data` sum to the total holdings gain. -/
lemma simLoop_rewards_sum (inj pool root : ℚ) :
    ∀ (fuel week : Nat) (s h : ℚ),
      ((simLoop inj pool root week fuel s h).2.2.map WeekRecord.Staking_Rewards).sum
        = (simLoop inj pool root week fuel s h).2.1 - h := by
  intro fuel
  induction fuel with
  | zero => intro week s h; simp [simLoop]
  | succ n ih =>
    intro week s h
    rw [simLoop_succ]
    simp only [List.map_cons, List.sum_cons, simWeek_record]
    rw [ih]
    ring

/-- Every `weekly_data` row satisfies `End_Holdings = Start_Holdings +
Staking_Rewards`. -/
lemma simLoop_record_step (inj pool root : ℚ) :
    ∀ (fuel week : Nat) (s h : ℚ),
      ∀ r ∈ (simLoop inj pool root week fuel s h).2.2,
        r.End_Holdings = r.Start_Holdings + r.Staking_Rewards := by
  intro fuel
  induction fuel with
  | zero => intro week s h r hr; simp [simLoop] at hr
  | succ n ih =>
    intro week s h r hr
    rw [simLoop_succ] at hr
    rcases List.mem_cons.mp hr with h0 | h0
    · subst h0; rw [simWeek_record]
    · exact ih (week + 1) (end_total_supply inj s)
        (h + user_staking_rewards inj pool root s h) r h0

/-- The week indices recorded in `weekly_data` are consecutive, starting one
above the loop counter. -/
lemma simLoop_week_indices (inj pool root : ℚ) :
    ∀ (fuel week : Nat) (s h : ℚ),
      (simLoop inj pool root week fuel s h).2.2.map WeekRecord.Week
        = List.range' (week + 1) fuel := by
  intro fuel
  induction fuel with
  | zero => intro week s h; simp [simLoop]
  | succ n ih =>
    intro week s h
    rw [simLoop_succ]
    simp only [List.map_cons, simWeek_record, List.range']
    rw [ih]

/-- The first `weekly_data` row, when it exists, starts at the entering
holdings. -/
lemma simLoop_head_start (inj pool root : ℚ) :
    ∀ (fuel week : Nat) (s h : ℚ),
      ∀ r ∈ (simLoop inj pool root week fuel s h).2.2.head?, r.Start_Holdings = h := by
  intro fuel
  induction fuel with
  | zero => intro week s h r hr; simp [simLoop] at hr
  | succ n _ =>
    intro week s h r hr
    rw [simLoop_succ] at hr
    simp only [List.head?_cons, Option.mem_def, Option.some.injEq] at hr
    subst hr
    rw [simWeek_record]

/-- Consecutive `weekly_data` rows chain: each row's `Start_Holdings` is the
previous row's `End_Holdings`. -/
lemma simLoop_data_chain (inj pool root : ℚ) :
    ∀ (fuel week : Nat) (s h : ℚ),
      (simLoop inj pool root week fuel s h).2.2.Chain'
        (fun a b => b.Start_Holdings = a.End_Holdings) := by
  intro fuel
  induction fuel with
  | zero => intro week s h; simp [simLoop]
  | succ n ih =>
    intro week s h
    rw [simLoop_succ]
    rw [List.chain'_cons']
    constructor
    · intro b hb
      have := simLoop_head_start inj pool root n (week + 1) (end_total_supply inj s)
        (h + user_staking_rewards inj pool root s h) b hb
      rw [this, simWeek_record]
    · exact ih (week + 1) (end_total_supply inj s)
        (h + user_staking_rewards inj pool root s h)

/-- C9: `total_rewards` equals `final_holdings - initial_holdings` and the sum
of the recorded `Staking_Rewards`; each row closes at its opening holdings
plus its reward; the `Week` indices are 1..weeks in ascending order; the first
row opens at `initial_holdings`; and each subsequent row opens at the previous
row's closing holdings. -/
theorem weekly_data_consistent (sid : String) (h s inj pool root : ℚ) (weeks : Nat)
    (hw : 1 ≤ weeks) :
    (calculate_alpha_growth sid h weeks s inj pool root).total_rewards
        = (calculate_alpha_growth sid h weeks s inj pool root).final_holdings
          - (calculate_alpha_growth sid h weeks s inj pool root).initial_holdings
    ∧ (calculate_alpha_growth sid h weeks s inj pool root).total_rewards
        = ((calculate_alpha_growth sid h weeks s inj pool root).weekly_data.map
            WeekRecord.Staking_Rewards).sum
    ∧ (∀ r ∈ (calculate_alpha_growth sid h weeks s inj pool root).weekly_data,
        r.End_Holdings = r.Start_Holdings + r.Staking_Rewards)
    ∧ (calculate_alpha_growth sid h weeks s inj pool root).weekly_data.map
        WeekRecord.Week = List.range' 1 weeks
    ∧ (∀ r ∈ (calculate_alpha_growth sid h weeks s inj pool root).weekly_data.head?,
        r.Start_Holdings = h)
    ∧ (calculate_alpha_growth sid h weeks s inj pool root).weekly_data.Chain'
        (fun a b => b.Start_Holdings = a.End_Holdings) := by
  refine ⟨rfl, ?_, ?_, ?_, ?_, ?_⟩
  · exact (simLoop_rewards_sum inj pool root weeks 0 s h).symm
  · exact simLoop_record_step inj pool root weeks 0 s h
  · exact simLoop_week_indices inj pool root weeks 0 s h
  · exact simLoop_head_start inj pool root weeks 0 s h
  · exact simLoop_data_chain inj pool root weeks 0 s h

/-- Witness for `weekly_data_consistent` at Scenario 1 arguments. -/
theorem weekly_data_consistent_witness :
    (calculate_alpha_growth "1" 5000 1 1925000 0.75 0.37 5600000).total_rewards
        = (calculate_alpha_growth "1" 5000 1 1925000 0.75 0.37 5600000).final_holdings
          - (calculate_alpha_growth "1" 5000 1 1925000 0.75 0.37 5600000).initial_holdings
    ∧ (calculate_alpha_growth "1" 5000 1 1925000 0.75 0.37 5600000).total_rewards
        = ((calculate_alpha_growth "1" 5000 1 1925000 0.75 0.37 5600000).weekly_data.map
            WeekRecord.Staking_Rewards).sum
    ∧ (∀ r ∈ (calculate_alpha_growth "1" 5000 1 1925000 0.75 0.37 5600000).weekly_data,
        r.End_Holdings = r.Start_Holdings + r.Staking_Rewards)
    ∧ (calculate_alpha_growth "1" 5000 1 1925000 0.75 0.37 5600000).weekly_data.map
        WeekRecord.Week = List.range' 1 1
    ∧ (∀ r ∈ (calculate_alpha_growth "1" 5000 1 1925000 0.75 0.37 5600000).weekly_data.head?,
        r.Start_Holdings = 5000)
    ∧ (calculate_alpha_growth "1" 5000 1 1925000 0.75 0.37 5600000).weekly_data.Chain'
        (fun a b => b.Start_Holdings = a.End_Holdings) :=
  weekly_data_consistent "1" 5000 1925000 0.75 0.37 5600000 1 (by norm_num)

end AdjustedFdv
